import Mathlib

/-!
# Verification of the HMASynthesiser authenticity checker

Shallow embedding of `src/HMASynthesiser/authenticity_checker.py`.

Modelling conventions:
* pandas cell values are `CellVal` (`null` models NaN/None; `num` a numeric
  cell as an exact rational; `str` a Python string; `ts` a `pandas.Timestamp`
  produced by `pd.to_datetime`, carrying its source text — a `Timestamp` never
  compares equal to a plain string, which the distinct constructors capture).
* a DataFrame is `Tbl`: a row count (`len(df)`) plus named columns, each with
  a dtype tag (`select_dtypes` dispatches on it) and its list of cells.
* the two dataset dicts (`real_data`, `synthetic_data`) are association lists
  `TableMap`; dict lookup is `lookupStr` (first binding wins, keys are unique
  in the program).
* IEEE-float arithmetic is modelled over `ℚ`.  Where the Python code divides
  by zero we do not get a rational: `Option ℚ` is used, `none` standing for
  the non-finite float (`inf`/`nan`) that numpy float division by zero yields
  (warnings are suppressed at the top of the file), respectively for the
  `ZeroDivisionError` that Python `int / int` raises — each use site documents
  which of the two it models.
-/

namespace AuthChecker

/-- pandas column dtypes relevant to the script: `numeric` is selected by
`select_dtypes(include=[np.number])`, `object` by
`select_dtypes(include=['object'])`, `datetime` is what a column becomes
after `pd.to_datetime` (selected by neither of the two comparators). -/
inductive Dtype
  | numeric
  | object
  | datetime
  deriving DecidableEq, Repr

/-- One cell of a DataFrame.  `ts s` is the `pandas.Timestamp` parsed from the
text `s`; it is a distinct Python object kind, never equal to the string `s`
itself (distinct constructors model that). -/
inductive CellVal
  | null
  | num (q : ℚ)
  | str (s : String)
  | ts (s : String)
  deriving DecidableEq, Repr

/-- A pandas column: its dtype and its cells. -/
abbrev Column := Dtype × List CellVal

/-- A DataFrame: `nrows` is `len(df)` (every column of a DataFrame has exactly
this many cells); `cols` the named columns in order. -/
structure Tbl where
  nrows : ℕ
  cols : List (String × Column)
  deriving DecidableEq, Repr

/-- A dict of named DataFrames (`real_data` / `synthetic_data`). -/
abbrev TableMap := List (String × Tbl)

/-- Dict/column lookup by key, first binding wins. -/
def lookupStr {α : Type} : List (String × α) → String → Option α
  | [], _ => none
  | p :: rest, k => if p.1 = k then some p.2 else lookupStr rest k

/-- Column lookup in a DataFrame (`col in df.columns` / `df[col]`). -/
def lookupCol (t : Tbl) (k : String) : Option Column := lookupStr t.cols k

/-- The distinct non-null values of a column: `set(series.dropna())`, also the
index set of `series.value_counts()` (which drops NaN by default). -/
def distinctNonNull (vals : List CellVal) : Finset CellVal :=
  (vals.filter (fun v => v != CellVal.null)).toFinset

/-- The numeric cells of a column, nulls dropped (`series.dropna()` on a
numeric column, and the values `mean`/`std` skip over). -/
def numericVals (c : Column) : List ℚ :=
  c.2.filterMap (fun v => match v with | CellVal.num q => some q | _ => none)

/-- `np.mean` / the guarded list averages in the script. -/
def listMean (l : List ℚ) : ℚ := l.sum / l.length

/-- `series.mean()`: mean of the non-null values, NaN (`none`) when there are
none. -/
def meanOpt (l : List ℚ) : Option ℚ :=
  if l.length = 0 then none else some (listMean l)

/-- Lines 221-222: `abs(real - synthetic) / real * 100`.  The code has no
zero-guard: when `real = 0` the numpy float division by zero silently yields a
non-finite value (`inf`, or `nan` when the numerator is also 0), modelled as
`none`. -/
def pctDiff (real synth : ℚ) : Option ℚ :=
  if real = 0 then none else some (|real - synth| / real * 100)

/-- `pctDiff` lifted to possibly-NaN baselines (an all-null column has NaN
mean/std, and NaN propagates through the difference formula). -/
def optPctDiff : Option ℚ → Option ℚ → Option ℚ
  | some r, some s => pctDiff r s
  | _, _ => none

/-- Empirical CDF of a sample at `t`: fraction of sample values `≤ t`. -/
def ecdf (xs : List ℚ) (t : ℚ) : ℚ :=
  ((xs.countP (fun v => decide (v ≤ t))) : ℚ) / (xs.length : ℚ)

/-- Two-sample Kolmogorov–Smirnov statistic (`stats.ks_2samp`): the maximum
absolute difference between the two empirical CDFs, attained at a point of the
pooled sample.  `none` models the `ValueError` scipy raises on an empty
sample, which line 233's `except` turns into the 0.5 fallback. -/
def ksStat (xs ys : List ℚ) : Option ℚ :=
  if xs.length = 0 ∨ ys.length = 0 then none
  else some (((xs ++ ys).map (fun t => |ecdf xs t - ecdf ys t|)).foldr max 0)

/-- Lines 229-235: `similarity_score = 1 - ks_stat`, falling back to `0.5`
when the KS statistic cannot be computed. -/
def similarityScore (xs ys : List ℚ) : ℚ :=
  match ksStat xs ys with
  | none => 1 / 2
  | some k => 1 - k

/-- Per-numeric-column comparison record (lines 237-241).  The raw
mean/std/min/max/median stats and `std_diff` are printed but never consumed by
the aggregator; `std_diff` is the same `pctDiff` formula applied to the two
standard deviations (irrational square roots, hence not representable as exact
rationals), so the claims about the difference formula are stated about
`pctDiff` itself. -/
structure NumColResult where
  mean_diff : Option ℚ
  similarity_score : ℚ
  deriving DecidableEq, Repr

/-- Lines 202-241, body of the per-column loop. -/
def numColResult (rc sc : Column) : NumColResult :=
  { mean_diff := optPctDiff (meanOpt (numericVals rc)) (meanOpt (numericVals sc))
    similarity_score := similarityScore (numericVals rc) (numericVals sc) }

/-- Lines 199-241: iterate the real table's numeric columns
(`select_dtypes(include=[np.number])`) and emit a result for each one whose
name is also a synthetic column (`if col in synthetic_df.columns`). -/
def statisticalComparisonTable (rt st : Tbl) : List (String × NumColResult) :=
  (rt.cols.filter (fun nc => nc.2.1 = Dtype.numeric)).filterMap
    (fun nc => (lookupCol st nc.1).map (fun sc => (nc.1, numColResult nc.2 sc)))

/-- Lines 191-245: per-table loop of `statistical_comparison`; a table is
analysed when its name is present in both collections. -/
def statisticalComparison (real syn : TableMap) :
    List (String × List (String × NumColResult)) :=
  real.filterMap
    (fun rt => (lookupStr syn rt.1).map (fun st => (rt.1, statisticalComparisonTable rt.2 st)))

/-! ## Column classification (lines 16-25 and 283-294) -/

/-- Lines 16-25: the module-level
`EXCLUDE_FROM_CATEGORICAL_SCORING` set. -/
def excludeFromCategoricalScoring : List String :=
  ["order_id", "customer_id", "product_id", "seller_id", "review_id",
   "order_purchase_timestamp", "order_approved_at", "order_delivered_carrier_date",
   "order_delivered_customer_date", "order_estimated_delivery_date", "shipping_limit_date",
   "review_creation_date", "review_answer_timestamp", "customer_unique_id",
   "customer_city", "customer_state", "seller_city", "seller_state", "seller_zip_code_prefix",
   "customer_zip_code_prefix", "geolocation_zip_code_prefix"]

/-- Line 283: `col in EXCLUDE_FROM_CATEGORICAL_SCORING`. -/
def excludedFromScoring (name : String) : Bool :=
  excludeFromCategoricalScoring.contains name

/-- Does the character list start with the pattern? -/
def charsStartWith : List Char → List Char → Bool
  | _, [] => true
  | [], _ :: _ => false
  | c :: cs, p :: ps => c == p && charsStartWith cs ps

/-- Substring occurrence on character lists (Python's `pat in s`). -/
def hasSub : List Char → List Char → Bool
  | [], pat => pat.isEmpty
  | c :: cs, pat => charsStartWith (c :: cs) pat || hasSub cs pat

/-- The characters of `s.lower()`. -/
def lowerChars (s : String) : List Char := s.toList.map Char.toLower

/-- Python `pat in col.lower()`. -/
def containsSub (s pat : String) : Bool := hasSub (lowerChars s) pat.toList

/-- Line 287: `any(id_term in col.lower() for id_term in ['id', 'unique'])`. -/
def idPat (name : String) : Bool := containsSub name "id" || containsSub name "unique"

/-- Line 289: `any(date_term in col.lower() for date_term in ['date', 'timestamp'])`. -/
def datePat (name : String) : Bool := containsSub name "date" || containsSub name "timestamp"

/-- Line 291: `any(geo_term in col.lower() for geo_term in ['city', 'state', 'zip'])`. -/
def geoPat (name : String) : Bool :=
  containsSub name "city" || containsSub name "state" || containsSub name "zip"

/-- Lines 286-294: the reason chain evaluated for an excluded column. -/
def exclusionReasonFor (name : String) : String :=
  if idPat name then "(ID - expected 0%)"
  else if datePat name then "(Date - expected 0%)"
  else if geoPat name then "(Geographic - may be synthetic)"
  else "(Synthetic by design)"

/-- Lines 284-294: `exclusion_reason` starts as `""` and is assigned only when
the column is in the exclusion set. -/
def exclusionReason (name : String) : String :=
  if excludedFromScoring name then exclusionReasonFor name else ""

/-- The classification the code attaches to a categorical column: the
`excluded_from_scoring` flag and the `exclusion_reason` tag. -/
def classifyCategorical (name : String) : Bool × String :=
  (excludedFromScoring name, exclusionReason name)

/-- The priority list of (name pattern, reason) rules the spec describes:
identifier, then temporal, then geographic. -/
def reasonRules : List ((String → Bool) × String) :=
  [(idPat, "(ID - expected 0%)"),
   (datePat, "(Date - expected 0%)"),
   (geoPat, "(Geographic - may be synthetic)")]

/-- Modelled from the spec's wording for comparison with the code: the reason
of the FIRST matching rule of `reasonRules`, with the "synthetic by design"
fallback when no pattern matches. -/
def firstMatchReason (name : String) : String :=
  match reasonRules.find? (fun r => r.1 name) with
  | some r => r.2
  | none => "(Synthetic by design)"

/-! ## Categorical comparator (lines 247-331) -/

/-- Per-categorical-column record (lines 320-327). -/
structure CatColResult where
  overlap_percentage : Option ℚ
  real_categories : ℕ
  synthetic_categories : ℕ
  excluded_from_scoring : Bool
  exclusion_reason : String
  english_comparison : Bool
  deriving DecidableEq, Repr

/-- Lines 269-327, body of the per-column loop.  `overlap_percentage` is
`(overlap / total_real) * 100` where both operands are Python `int`s: when
`total_real = 0` the division raises `ZeroDivisionError` (modelled `none`) —
there is no guard in the code. -/
def catColResult (tname cname : String) (rv sv : List CellVal) : CatColResult :=
  let realCats := distinctNonNull rv
  let synCats := distinctNonNull sv
  { overlap_percentage :=
      if realCats.card = 0 then none
      else some (((realCats ∩ synCats).card : ℚ) / (realCats.card : ℚ) * 100)
    real_categories := realCats.card
    synthetic_categories := synCats.card
    excluded_from_scoring := excludedFromScoring cname
    exclusion_reason := exclusionReason cname
    english_comparison := tname == "products" && containsSub cname "category" }

/-- Lines 259-327: per-table body of `categorical_comparison`. `translate`
stands for `prepare_products_with_english_categories`, the external
label-normalization collaborator applied (to a copy of) the real products
table only; it returns the input unchanged on any failure. -/
def categoricalComparisonTable (translate : Tbl → Tbl) (tname : String) (rt st : Tbl) :
    List (String × CatColResult) :=
  let rt' := if tname = "products" then translate rt else rt
  (rt'.cols.filter (fun nc => nc.2.1 = Dtype.object)).filterMap
    (fun nc => (lookupCol st nc.1).map (fun sc => (nc.1, catColResult tname nc.1 nc.2.2 sc.2)))

/-- Lines 254-331: a table is analysed when its name appears in both
collections. -/
def categoricalComparison (translate : Tbl → Tbl) (real syn : TableMap) :
    List (String × List (String × CatColResult)) :=
  real.filterMap
    (fun rt =>
      (lookupStr syn rt.1).map (fun st => (rt.1, categoricalComparisonTable translate rt.1 rt.2 st)))

/-! ## Referential integrity checker (lines 333-378) -/

/-- Lines 341-347: the fixed relationship catalog
`(parent_table, child_table, key_column)`. -/
def relationships : List (String × String × String) :=
  [("orders", "order_items", "order_id"),
   ("orders", "payments", "order_id"),
   ("customers", "orders", "customer_id"),
   ("products", "order_items", "product_id"),
   ("sellers", "order_items", "seller_id")]

/-- Line 358: `orphaned_keys = child_keys - parent_keys`, the distinct
non-null child key values absent from the distinct non-null parent key
values. -/
def orphanSet (pcol ccol : Column) : Finset CellVal :=
  distinctNonNull ccol.2 \ distinctNonNull pcol.2

/-- Line 362: `(total_child_records - orphaned_count) / total_child_records
* 100`, over ℚ (Python evaluates it in floats, exactly representing these
small integers). -/
def integrityPct (total : ℕ) (pcol ccol : Column) : ℚ :=
  ((total : ℚ) - ((orphanSet pcol ccol).card : ℚ)) / (total : ℚ) * 100

/-- Outcome of one iteration of the relationship loop. -/
inductive RelOutcome
  | skipped
  | crashed
  | evaluated (orphanCount : ℕ) (integrityPctVal : ℚ)
  deriving DecidableEq, Repr

/-- Lines 349-362: one relationship.  Missing tables (line 350) or a missing
key column on either side (line 354) silently skip the body — nothing is
recorded and nothing is raised.  When the child table is empty,
`(total - orphans) / total` is Python `int / int` with a zero divisor:
`ZeroDivisionError`, an uncaught crash (`crashed`). -/
def checkRelationship (syn : TableMap) (parent child key : String) : RelOutcome :=
  match lookupStr syn parent with
  | none => RelOutcome.skipped
  | some pt =>
    match lookupStr syn child with
    | none => RelOutcome.skipped
    | some ct =>
      match lookupCol pt key with
      | none => RelOutcome.skipped
      | some pcol =>
        match lookupCol ct key with
        | none => RelOutcome.skipped
        | some ccol =>
          if ct.nrows = 0 then RelOutcome.crashed
          else RelOutcome.evaluated (orphanSet pcol ccol).card (integrityPct ct.nrows pcol ccol)

/-- Lines 338-378: `integrity_results`, keyed `f"{parent}_{child}"`, holding
`(orphaned_count, integrity_percentage)` for each relationship whose body
ran; skipped relationships leave no trace.  The outer `Option` is the run
itself: `none` models the uncaught `ZeroDivisionError` aborting the whole
function. -/
def referentialIntegrityCheck (syn : TableMap) :
    List (String × String × String) → Option (List (String × ℕ × ℚ))
  | [] => some []
  | (p, c, k) :: rest =>
    match checkRelationship syn p c k with
    | RelOutcome.crashed => none
    | RelOutcome.skipped => referentialIntegrityCheck syn rest
    | RelOutcome.evaluated o i =>
      (referentialIntegrityCheck syn rest).map (fun l => (p ++ "_" ++ c, o, i) :: l)

/-! ## Business logic validation (lines 380-448) -/

/-- A string `pd.to_datetime` accepts in this dataset: the canonical
`YYYY-MM-DD HH:MM:SS` layout the olist tables use.  (pandas accepts further
layouts; no theorem below quantifies over the success of parsing — only
concrete instances of this layout are used.) -/
def timestampShaped (s : String) : Bool :=
  match s.toList with
  | [y1, y2, y3, y4, '-', m1, m2, '-', d1, d2, ' ', h1, h2, ':', n1, n2, ':', s1, s2] =>
    [y1, y2, y3, y4, m1, m2, d1, d2, h1, h2, n1, n2, s1, s2].all Char.isDigit
  | _ => false

/-- Does `pd.to_datetime` succeed on this cell?  NaN becomes NaT, an already
parsed timestamp passes through, numbers are read as epochs. -/
def cellParseable : CellVal → Bool
  | CellVal.null => true
  | CellVal.num _ => true
  | CellVal.str s => timestampShaped s
  | CellVal.ts _ => true

/-- The effect of a successful `pd.to_datetime` on one cell. -/
def toDatetimeCell : CellVal → CellVal
  | CellVal.str s => CellVal.ts s
  | v => v

/-- Replace the binding of `k` (dict assignment of an existing key / in-place
DataFrame column overwrite). -/
def updateAssoc {α : Type} (m : List (String × α)) (k : String) (v : α) :
    List (String × α) :=
  m.map (fun p => if p.1 = k then (k, v) else p)

/-- Lines 388-403: `orders = synthetic_data['orders']` aliases the stored
DataFrame, and line 392's
`orders['order_purchase_timestamp'] = pd.to_datetime(...)` overwrites that
column IN PLACE, so the synthetic collection itself changes: the column's
dtype becomes datetime and its cells become `Timestamp`s.  `pd.to_datetime`
is all-or-nothing: if any cell fails to parse it raises, the `except` on line
402 swallows it, and nothing is mutated. -/
def businessMutateOrders (syn : TableMap) : TableMap :=
  match lookupStr syn "orders" with
  | none => syn
  | some t =>
    match lookupCol t "order_purchase_timestamp" with
    | none => syn
    | some col =>
      if col.2.all cellParseable then
        updateAssoc syn "orders"
          ⟨t.nrows,
           updateAssoc t.cols "order_purchase_timestamp"
             (Dtype.datetime, col.2.map toDatetimeCell)⟩
      else syn

/-! ## The four components as state transformers

`main` (lines 539-543) calls the four components in sequence on the shared
pair `(real_data, synthetic_data)`.  Each step below pairs the component's
return value with the state of that pair after the call:
`statistical_comparison` (lines 184-245), `categorical_comparison` (lines
247-331, `prepare_products_with_english_categories` copies the products
frame on line 129 before editing it) and `referential_integrity_check`
(lines 333-378) perform no assignment to any stored DataFrame, so their
post-state is the input state; `business_logic_validation` performs the
in-place mutation of `businessMutateOrders` (its remaining checks, lines
406-446, only read; its `validation_results` value is never consumed by the
report, line 450 ignores the argument). -/

/-- `statistical_comparison` as a step: result plus unchanged state. -/
def statisticalStep (st : TableMap × TableMap) :
    List (String × List (String × NumColResult)) × (TableMap × TableMap) :=
  (statisticalComparison st.1 st.2, st)

/-- `categorical_comparison` as a step: result plus unchanged state. -/
def categoricalStep (translate : Tbl → Tbl) (st : TableMap × TableMap) :
    List (String × List (String × CatColResult)) × (TableMap × TableMap) :=
  (categoricalComparison translate st.1 st.2, st)

/-- `referential_integrity_check` as a step: result plus unchanged state. -/
def referentialStep (rels : List (String × String × String)) (st : TableMap × TableMap) :
    Option (List (String × ℕ × ℚ)) × (TableMap × TableMap) :=
  (referentialIntegrityCheck st.2 rels, st)

/-- `business_logic_validation` as a step: the post-call state (the real
collection untouched, the synthetic collection mutated as on line 392). -/
def businessStep (st : TableMap × TableMap) : TableMap × TableMap :=
  (st.1, businessMutateOrders st.2)

/-! ## Score aggregation (lines 450-524) -/

/-- Lines 458-462: every per-column `similarity_score`, in traversal order. -/
def allSimScores : List (String × List (String × NumColResult)) → List ℚ
  | [] => []
  | t :: rest => t.2.map (fun c => c.2.similarity_score) ++ allSimScores rest

/-- Line 461: only scores with `similarity_score > 0` are kept. -/
def statScores (cr : List (String × List (String × NumColResult))) : List ℚ :=
  (allSimScores cr).filter (fun s => decide (0 < s))

/-- Line 464: `np.mean(stat_scores) if stat_scores else 0.5`. -/
def avgStatScore (cr : List (String × List (String × NumColResult))) : ℚ :=
  if statScores cr = [] then 1 / 2 else listMean (statScores cr)

/-- Lines 489-490: mean of `integrity_percentage / 100` over the recorded
relationship results, `1.0` when none were evaluated. -/
def avgIntegrityScore (ir : List (String × ℕ × ℚ)) : ℚ :=
  if ir = [] then 1 else listMean (ir.map (fun e => e.2.2 / 100))

/-- Lines 499-508: the qualitative tier printed for the overall score,
thresholds checked with `>=` from the top down. -/
def tier (score : ℚ) : String :=
  if 85 / 100 ≤ score then "EXCELLENT"
  else if 75 / 100 ≤ score then "VERY GOOD"
  else if 65 / 100 ≤ score then "GOOD"
  else if 55 / 100 ≤ score then "FAIR"
  else "POOR"

/-! ## Theorems -/

/-- C1: the claim says the relative mean/std differences are "defined as 0
when the real-side baseline value is exactly 0, so their computation never
divides by zero".  False: lines 221-222 have no zero-guard — with a zero real
baseline the division by zero is performed and the numpy float result is
non-finite (`inf`/`nan`, modelled `none`), not 0. -/
theorem C1_zero_baseline_cx : pctDiff 0 5 = none ∧ pctDiff 0 5 ≠ some 0 := by
  constructor <;> decide

/-- C1 (amended): the relative percentage difference equals
`|real - synthetic| / real * 100` whenever the real-side baseline is
non-zero; when the baseline is exactly 0 the division by zero is still
performed and the result is the non-finite float (`none`), not 0. -/
theorem C1_pct_diff_amended (r s : ℚ) :
    (r ≠ 0 → pctDiff r s = some (|r - s| / r * 100)) ∧
    (r = 0 → pctDiff r s = none) := by
  constructor <;> intro h <;> simp [pctDiff, h]

/-- Witness for `C1_pct_diff_amended` at baseline 10 against synthetic 5. -/
theorem C1_pct_diff_witness : pctDiff 10 5 = some 50 := by
  have h := (C1_pct_diff_amended 10 5).1 (by norm_num)
  rw [h]; norm_num

/-- C2: the claim says the overlap percentage "is defined as 0 (not
undefined) when the real set is empty".  False: line 280 divides the Python
ints `overlap / total_real` with no guard, so an all-null real column
(`total_real = 0`) raises `ZeroDivisionError` (modelled `none`) — the value
is undefined, not 0. -/
theorem C2_empty_real_cx :
    (catColResult "orders" "c" [CellVal.null] [CellVal.str "a"]).overlap_percentage = none ∧
    (catColResult "orders" "c" [CellVal.null] [CellVal.str "a"]).overlap_percentage ≠ some 0 := by
  constructor <;> decide

/-- C2 (amended): whenever the real distinct-value set is non-empty, the
overlap percentage is defined, equals
`|real ∩ synthetic| / |real| * 100` and lies in `[0, 100]`; for an empty
real set the computation raises `ZeroDivisionError` instead of yielding 0. -/
theorem C2_overlap_amended (tname cname : String) (rv sv : List CellVal)
    (h : (distinctNonNull rv).Nonempty) :
    ∃ q : ℚ, (catColResult tname cname rv sv).overlap_percentage = some q ∧
      q = ((distinctNonNull rv ∩ distinctNonNull sv).card : ℚ) /
            ((distinctNonNull rv).card : ℚ) * 100 ∧
      0 ≤ q ∧ q ≤ 100 := by
  have hc0 : (distinctNonNull rv).card ≠ 0 := Finset.card_ne_zero.mpr h
  have hpos : (0 : ℚ) < ((distinctNonNull rv).card : ℚ) := by
    exact_mod_cast Nat.pos_of_ne_zero hc0
  refine ⟨_, ?_, rfl, ?_, ?_⟩
  · simp [catColResult, hc0]
  · positivity
  · have hle : ((distinctNonNull rv ∩ distinctNonNull sv).card : ℚ) ≤
        ((distinctNonNull rv).card : ℚ) := by
      exact_mod_cast Finset.card_le_card Finset.inter_subset_left
    have h1 : ((distinctNonNull rv ∩ distinctNonNull sv).card : ℚ) /
        ((distinctNonNull rv).card : ℚ) ≤ 1 :=
      div_le_one_of_le₀ hle (le_of_lt hpos)
    calc ((distinctNonNull rv ∩ distinctNonNull sv).card : ℚ) /
          ((distinctNonNull rv).card : ℚ) * 100
        ≤ 1 * 100 := mul_le_mul_of_nonneg_right h1 (by norm_num)
      _ = 100 := by norm_num

/-- Witness for `C2_overlap_amended`: the spec's own scenario, real set
`{A, B, C}`, synthetic set `{B, C, D}`, overlap `2/3`. -/
theorem C2_overlap_witness :
    (catColResult "products" "cat"
      [CellVal.str "A", CellVal.str "B", CellVal.str "C"]
      [CellVal.str "B", CellVal.str "C", CellVal.str "D"]).overlap_percentage =
    some (200 / 3) := by
  obtain ⟨q, hq, hform, -, -⟩ := C2_overlap_amended "products" "cat"
    [CellVal.str "A", CellVal.str "B", CellVal.str "C"]
    [CellVal.str "B", CellVal.str "C", CellVal.str "D"]
    ⟨CellVal.str "A", by decide⟩
  rw [hq, hform]
  have h1 : (distinctNonNull [CellVal.str "A", CellVal.str "B", CellVal.str "C"] ∩
      distinctNonNull [CellVal.str "B", CellVal.str "C", CellVal.str "D"]).card = 2 := by decide
  have h2 : (distinctNonNull [CellVal.str "A", CellVal.str "B", CellVal.str "C"]).card = 3 := by
    decide
  rw [h1, h2]; norm_num

/-- The nested if-chain of lines 286-294 picks exactly the reason of the
first matching rule of the priority list identifier > temporal > geographic,
with the "synthetic by design" fallback. -/
theorem exclusionReasonFor_eq_firstMatch (name : String) :
    exclusionReasonFor name = firstMatchReason name := by
  unfold exclusionReasonFor firstMatchReason reasonRules
  cases hid : idPat name <;> cases hdate : datePat name <;> cases hgeo : geoPat name <;>
    simp [List.find?, hid, hdate, hgeo]

/-- C8: column classification is a pure function — classifying equal
(column name, table, dtype) inputs yields equal (flag, reason) results — and
for an excluded column the recorded reason is that of the first matching
rule in the priority order identifier pattern, temporal pattern, geographic
pattern, fallback "synthetic by design".  (The code computes the flag and
reason from the column name alone, lines 283-294, so the table and dtype
arguments are carried only to mirror the claim's signature.) -/
theorem C8_classification (n₁ n₂ _t₁ _t₂ : String) (_d₁ _d₂ : Dtype) (h : n₁ = n₂) :
    classifyCategorical n₁ = classifyCategorical n₂ ∧
    (excludedFromScoring n₁ = true → exclusionReason n₁ = firstMatchReason n₁) := by
  subst h
  refine ⟨rfl, fun hx => ?_⟩
  simp [exclusionReason, hx, exclusionReasonFor_eq_firstMatch]

/-- Witness for `C8_classification` at the excluded column `customer_city`:
neither the identifier nor the temporal pattern matches, the geographic one
does, and that reason is recorded. -/
theorem C8_classification_witness :
    classifyCategorical "customer_city" = (true, "(Geographic - may be synthetic)") ∧
    exclusionReason "customer_city" = firstMatchReason "customer_city" :=
  ⟨by decide,
   (C8_classification "customer_city" "customer_city" "customers" "orders"
      Dtype.object Dtype.object rfl).2 (by decide)⟩

/-- C9: the qualitative tier is determined from the overall score by fixed
thresholds closed on the lower bound of each tier (lines 499-508). -/
theorem C9_tier_thresholds (s : ℚ) :
    (tier s = "EXCELLENT" ↔ 85 / 100 ≤ s) ∧
    (tier s = "VERY GOOD" ↔ 75 / 100 ≤ s ∧ s < 85 / 100) ∧
    (tier s = "GOOD" ↔ 65 / 100 ≤ s ∧ s < 75 / 100) ∧
    (tier s = "FAIR" ↔ 55 / 100 ≤ s ∧ s < 65 / 100) ∧
    (tier s = "POOR" ↔ s < 55 / 100) := by
  unfold tier
  split_ifs with h1 h2 h3 h4 <;>
    refine ⟨?_, ?_, ?_, ?_, ?_⟩ <;>
    constructor <;>
    intro h <;>
    first
      | rfl
      | linarith
      | (exact absurd h (by decide))
      | (exact ⟨by linarith, by linarith⟩)

/-- Witness for `C9_tier_thresholds` at score 0.9. -/
theorem C9_tier_witness : tier (9 / 10) = "EXCELLENT" :=
  ((C9_tier_thresholds (9 / 10)).1).mpr (by norm_num)

/-- C10: whether a categorical column is excluded from scoring and which
reason it is tagged with depend only on the column name: two comparisons
agreeing on the column name — whatever their table names and real/synthetic
column contents — get the identical flag and reason. -/
theorem C10_exclusion_name_only (t₁ t₂ cname : String) (rv₁ sv₁ rv₂ sv₂ : List CellVal) :
    (catColResult t₁ cname rv₁ sv₁).excluded_from_scoring =
      (catColResult t₂ cname rv₂ sv₂).excluded_from_scoring ∧
    (catColResult t₁ cname rv₁ sv₁).exclusion_reason =
      (catColResult t₂ cname rv₂ sv₂).exclusion_reason :=
  ⟨rfl, rfl⟩

/-- C3: the claim says a numeric column with zero non-null values on either
side is skipped, with no result emitted.  False: lines 202-241 emit a result
for every numeric real column whose name is a synthetic column — there is no
non-null count check.  Here the real side is entirely null and a result for
`"x"` is emitted anyway. -/
theorem C3_no_skip_cx :
    (statisticalComparisonTable ⟨1, [("x", (Dtype.numeric, [CellVal.null]))]⟩
      ⟨1, [("x", (Dtype.numeric, [CellVal.num 1]))]⟩).map Prod.fst = ["x"] ∧
    (statisticalComparisonTable ⟨1, [("x", (Dtype.numeric, [CellVal.null]))]⟩
      ⟨1, [("x", (Dtype.numeric, [CellVal.num 1]))]⟩) ≠ [] := by
  constructor <;> decide

/-- C3 (amended): a `ComparisonResult` is emitted for a column name exactly
when it is a numeric column of the real table whose name also appears among
the synthetic table's columns — regardless of non-null counts on either side
(an all-null side yields NaN statistics and the 0.5 similarity fallback, not
a skip). -/
theorem C3_emission_amended (rt st : Tbl) (name : String) :
    (∃ r, (name, r) ∈ statisticalComparisonTable rt st) ↔
    (∃ c : Column, (name, c) ∈ rt.cols ∧ c.1 = Dtype.numeric ∧ (lookupCol st name).isSome) := by
  constructor
  · rintro ⟨r, hr⟩
    rw [statisticalComparisonTable] at hr
    rcases List.mem_filterMap.mp hr with ⟨⟨n', c⟩, hmem, hf⟩
    rcases Option.map_eq_some'.mp hf with ⟨sc, hlk, heq⟩
    rcases Prod.mk.injEq .. ▸ heq with ⟨hn, -⟩
    rcases List.mem_filter.mp hmem with ⟨hmem', hcond⟩
    refine ⟨c, ?_, by simpa using hcond, ?_⟩
    · simpa [← hn] using hmem'
    · simp only [← hn]
      exact hlk ▸ rfl
  · rintro ⟨c, hmem, hnum, hsome⟩
    rcases Option.isSome_iff_exists.mp hsome with ⟨sc, hsc⟩
    refine ⟨numColResult c sc, ?_⟩
    rw [statisticalComparisonTable]
    refine List.mem_filterMap.mpr ⟨(name, c), List.mem_filter.mpr ⟨hmem, by simp [hnum]⟩, ?_⟩
    simp [hsc]

/-- Witness for `C3_emission_amended`: a numeric column present on both
sides is emitted. -/
theorem C3_emission_witness :
    ∃ r, ("x", r) ∈ statisticalComparisonTable
      ⟨1, [("x", (Dtype.numeric, [CellVal.num 2]))]⟩
      ⟨1, [("x", (Dtype.numeric, [CellVal.num 3]))]⟩ :=
  (C3_emission_amended ⟨1, [("x", (Dtype.numeric, [CellVal.num 2]))]⟩
      ⟨1, [("x", (Dtype.numeric, [CellVal.num 3]))]⟩ "x").mpr
    ⟨(Dtype.numeric, [CellVal.num 2]), by decide, rfl, by decide⟩

/-- C4: the claim says every emitted similarity score, whatever its value in
`[0, 1]`, contributes to the numeric dimension mean.  False: line 461 keeps
only scores `> 0`.  With one emitted column scoring exactly 0 (real sample
`[0]`, synthetic `[1]`: the KS statistic is 1), the dimension score is the
0.5 default, not the mean 0 of all emitted scores. -/
theorem C4_zero_score_cx :
    allSimScores (statisticalComparison
      [("t", ⟨1, [("x", (Dtype.numeric, [CellVal.num 0]))]⟩)]
      [("t", ⟨1, [("x", (Dtype.numeric, [CellVal.num 1]))]⟩)]) = [0] ∧
    avgStatScore (statisticalComparison
      [("t", ⟨1, [("x", (Dtype.numeric, [CellVal.num 0]))]⟩)]
      [("t", ⟨1, [("x", (Dtype.numeric, [CellVal.num 1]))]⟩)]) = 1 / 2 ∧
    avgStatScore (statisticalComparison
      [("t", ⟨1, [("x", (Dtype.numeric, [CellVal.num 0]))]⟩)]
      [("t", ⟨1, [("x", (Dtype.numeric, [CellVal.num 1]))]⟩)]) ≠
      listMean (allSimScores (statisticalComparison
        [("t", ⟨1, [("x", (Dtype.numeric, [CellVal.num 0]))]⟩)]
        [("t", ⟨1, [("x", (Dtype.numeric, [CellVal.num 1]))]⟩)])) := by
  have ha : allSimScores (statisticalComparison
      [("t", ⟨1, [("x", (Dtype.numeric, [CellVal.num 0]))]⟩)]
      [("t", ⟨1, [("x", (Dtype.numeric, [CellVal.num 1]))]⟩)]) = [0] := by
    simp [allSimScores, statisticalComparison, statisticalComparisonTable, lookupStr,
      lookupCol, numColResult, similarityScore, ksStat, ecdf, numericVals]
  have hb : avgStatScore (statisticalComparison
      [("t", ⟨1, [("x", (Dtype.numeric, [CellVal.num 0]))]⟩)]
      [("t", ⟨1, [("x", (Dtype.numeric, [CellVal.num 1]))]⟩)]) = 1 / 2 := by
    simp [avgStatScore, statScores, allSimScores, statisticalComparison,
      statisticalComparisonTable, lookupStr, lookupCol, numColResult, similarityScore,
      ksStat, ecdf, numericVals]
  refine ⟨ha, hb, ?_⟩
  rw [ha, hb]
  norm_num [listMean]

/-- C4 (amended): the numeric dimension score averages only the strictly
positive per-column similarity scores; scores equal to 0 are excluded, and
the 0.5 default applies exactly when no strictly positive score exists.  In
particular, when all emitted scores are strictly positive (and at least one
exists) it does equal the mean of all of them. -/
theorem C4_stat_dim_amended (cr : List (String × List (String × NumColResult))) :
    (statScores cr = [] → avgStatScore cr = 1 / 2) ∧
    (statScores cr ≠ [] → avgStatScore cr = listMean (statScores cr)) ∧
    (allSimScores cr ≠ [] → (∀ s ∈ allSimScores cr, 0 < s) →
      avgStatScore cr = listMean (allSimScores cr)) := by
  refine ⟨fun h => by simp [avgStatScore, h], fun h => by simp [avgStatScore, h],
    fun hne hall => ?_⟩
  have hfil : statScores cr = allSimScores cr := by
    unfold statScores
    refine List.filter_eq_self.mpr fun a ha => ?_
    simpa using hall a ha
  have hne' : statScores cr ≠ [] := by rw [hfil]; exact hne
  rw [avgStatScore, if_neg hne', hfil]

/-- Witness for `C4_stat_dim_amended`: identical one-value samples give
similarity 1, and the dimension score is the mean of all emitted scores. -/
theorem C4_stat_dim_witness :
    avgStatScore (statisticalComparison
      [("t", ⟨1, [("x", (Dtype.numeric, [CellVal.num 1]))]⟩)]
      [("t", ⟨1, [("x", (Dtype.numeric, [CellVal.num 1]))]⟩)]) = 1 := by
  have ha : allSimScores (statisticalComparison
      [("t", ⟨1, [("x", (Dtype.numeric, [CellVal.num 1]))]⟩)]
      [("t", ⟨1, [("x", (Dtype.numeric, [CellVal.num 1]))]⟩)]) = [1] := by
    simp [allSimScores, statisticalComparison, statisticalComparisonTable, lookupStr,
      lookupCol, numColResult, similarityScore, ksStat, ecdf, numericVals]
  have h := (C4_stat_dim_amended (statisticalComparison
      [("t", ⟨1, [("x", (Dtype.numeric, [CellVal.num 1]))]⟩)]
      [("t", ⟨1, [("x", (Dtype.numeric, [CellVal.num 1]))]⟩)])).2.2
    (by rw [ha]; simp) (by rw [ha]; intro s hs; simp at hs; rw [hs]; norm_num)
  rw [h, ha]
  norm_num [listMean]

/-- C5: the claim says a relationship whose tables/column are missing gets a
diagnostic "skipped" entry.  False: lines 349-354 guard the loop body with
membership tests, so a missing table or column leaves NO trace — with a
synthetic collection holding only `order_items` (without an `order_id`
column) and `orders`, all five declared relationships are silently passed
over and `integrity_results` ends empty (the result type cannot even express
a skip marker); the run does not fail, and nothing enters the referential
average.  Every miss kind is exercised: `customers → orders` (parent table
missing), `orders → payments` (child table missing), `orders → order_items`
(key column missing from the child), and — on a second collection — the key
column missing from the parent. -/
theorem C5_silent_skip_cx :
    referentialIntegrityCheck
      [("order_items", ⟨1, [("product_id", (Dtype.object, [CellVal.str "p"]))]⟩),
       ("orders", ⟨1, [("order_id", (Dtype.object, [CellVal.str "o"]))]⟩)]
      relationships = some [] ∧
    checkRelationship
      [("order_items", ⟨1, [("product_id", (Dtype.object, [CellVal.str "p"]))]⟩),
       ("orders", ⟨1, [("order_id", (Dtype.object, [CellVal.str "o"]))]⟩)]
      "customers" "orders" "customer_id" = RelOutcome.skipped ∧
    checkRelationship
      [("order_items", ⟨1, [("product_id", (Dtype.object, [CellVal.str "p"]))]⟩),
       ("orders", ⟨1, [("order_id", (Dtype.object, [CellVal.str "o"]))]⟩)]
      "orders" "payments" "order_id" = RelOutcome.skipped ∧
    checkRelationship
      [("order_items", ⟨1, [("product_id", (Dtype.object, [CellVal.str "p"]))]⟩),
       ("orders", ⟨1, [("order_id", (Dtype.object, [CellVal.str "o"]))]⟩)]
      "orders" "order_items" "order_id" = RelOutcome.skipped ∧
    checkRelationship
      [("orders", ⟨1, []⟩),
       ("order_items", ⟨1, [("order_id", (Dtype.object, [CellVal.str "o"]))]⟩)]
      "orders" "order_items" "order_id" = RelOutcome.skipped := by
  refine ⟨by decide, by decide, by decide, by decide, by decide⟩

/-- C5 (amended): a relationship whose parent table, child table, or key
column (on either side) is missing from the synthetic collection is silently
skipped — no entry of any kind is recorded for it and the run does not fail —
and it is excluded from the referential dimension score: the result list, and
hence the average over evaluated relationships, is the same as if the
relationship had not been declared. -/
theorem C5_skip_amended (syn : TableMap) (p c k : String)
    (rels₁ rels₂ : List (String × String × String))
    (h : lookupStr syn p = none ∨ lookupStr syn c = none ∨
      (∃ pt, lookupStr syn p = some pt ∧ lookupCol pt k = none) ∨
      (∃ ct, lookupStr syn c = some ct ∧ lookupCol ct k = none)) :
    checkRelationship syn p c k = RelOutcome.skipped ∧
    referentialIntegrityCheck syn (rels₁ ++ (p, c, k) :: rels₂) =
      referentialIntegrityCheck syn (rels₁ ++ rels₂) ∧
    (referentialIntegrityCheck syn (rels₁ ++ (p, c, k) :: rels₂)).map avgIntegrityScore =
      (referentialIntegrityCheck syn (rels₁ ++ rels₂)).map avgIntegrityScore := by
  have hskip : checkRelationship syn p c k = RelOutcome.skipped := by
    rcases h with h | h | ⟨pt, hpt, hptk⟩ | ⟨ct, hct, hctk⟩
    · simp [checkRelationship, h]
    · cases hp2 : lookupStr syn p with
      | none => simp [checkRelationship, hp2]
      | some pt => simp [checkRelationship, hp2, h]
    · cases hc2 : lookupStr syn c with
      | none => simp [checkRelationship, hpt, hc2]
      | some ct => simp [checkRelationship, hpt, hc2, hptk]
    · cases hp2 : lookupStr syn p with
      | none => simp [checkRelationship, hp2]
      | some pt =>
        cases hpk : lookupCol pt k with
        | none => simp [checkRelationship, hp2, hpk, hct]
        | some pcol => simp [checkRelationship, hp2, hpk, hct, hctk]
  have hlist : ∀ l, referentialIntegrityCheck syn (l ++ (p, c, k) :: rels₂) =
      referentialIntegrityCheck syn (l ++ rels₂) := by
    intro l
    induction l with
    | nil => simp [referentialIntegrityCheck, hskip]
    | cons hd tl ih =>
      obtain ⟨hp, hc, hk⟩ := hd
      simp only [List.cons_append, referentialIntegrityCheck]
      cases hout : checkRelationship syn hp hc hk <;> simp [ih]
  exact ⟨hskip, hlist rels₁, by rw [hlist rels₁]⟩

/-- Witness for `C5_skip_amended` with both tables present but the key column
`order_id` missing from the child table. -/
theorem C5_skip_witness :
    checkRelationship
      [("orders", ⟨1, [("order_id", (Dtype.object, [CellVal.str "o"]))]⟩),
       ("order_items", ⟨1, [("product_id", (Dtype.object, [CellVal.str "p"]))]⟩)]
      "orders" "order_items" "order_id" = RelOutcome.skipped :=
  (C5_skip_amended
    [("orders", ⟨1, [("order_id", (Dtype.object, [CellVal.str "o"]))]⟩),
     ("order_items", ⟨1, [("product_id", (Dtype.object, [CellVal.str "p"]))]⟩)]
    "orders" "order_items" "order_id" [] []
    (Or.inr (Or.inr (Or.inr
      ⟨⟨1, [("product_id", (Dtype.object, [CellVal.str "p"]))]⟩, by decide, by decide⟩)))).1

/-- C7: for every relationship the loop body evaluates (tables and key
column present, child table non-empty), the recorded integrity percentage is
exactly `(total_child_records - |orphans|) / total_child_records * 100` with
the orphans the distinct non-null child keys absent from the distinct
non-null parent keys; it is 100 iff every child key occurs among the parent
keys, strictly below 100 when an orphan exists, and enlarging the parent key
set (unreferenced parent keys included) never lowers it. -/
theorem C7_integrity_pct (syn : TableMap) (p c k : String) (pt ct : Tbl)
    (pcol ccol : Column)
    (hp : lookupStr syn p = some pt) (hc : lookupStr syn c = some ct)
    (hpk : lookupCol pt k = some pcol) (hck : lookupCol ct k = some ccol)
    (hn : 0 < ct.nrows) :
    checkRelationship syn p c k =
      RelOutcome.evaluated (orphanSet pcol ccol).card (integrityPct ct.nrows pcol ccol) ∧
    (integrityPct ct.nrows pcol ccol = 100 ↔
      distinctNonNull ccol.2 ⊆ distinctNonNull pcol.2) ∧
    ((orphanSet pcol ccol).Nonempty → integrityPct ct.nrows pcol ccol < 100) ∧
    (∀ pcol' : Column, distinctNonNull pcol.2 ⊆ distinctNonNull pcol'.2 →
      integrityPct ct.nrows pcol ccol ≤ integrityPct ct.nrows pcol' ccol) := by
  have hn0 : ct.nrows ≠ 0 := Nat.pos_iff_ne_zero.mp hn
  have hnq : (0 : ℚ) < (ct.nrows : ℚ) := by exact_mod_cast hn
  refine ⟨by simp [checkRelationship, hp, hc, hpk, hck, hn0], ?_, ?_, ?_⟩
  · unfold integrityPct
    rw [div_mul_eq_mul_div, div_eq_iff (ne_of_gt hnq)]
    constructor
    · intro h
      have hq : ((orphanSet pcol ccol).card : ℚ) = 0 := by linarith
      have hcard : (orphanSet pcol ccol).card = 0 := by exact_mod_cast hq
      exact Finset.sdiff_eq_empty_iff_subset.mp (Finset.card_eq_zero.mp hcard)
    · intro hsub
      have he : orphanSet pcol ccol = ∅ := Finset.sdiff_eq_empty_iff_subset.mpr hsub
      rw [he]
      simp
      ring
  · intro hne
    have hpos : (0 : ℚ) < ((orphanSet pcol ccol).card : ℚ) := by
      exact_mod_cast Finset.Nonempty.card_pos hne
    unfold integrityPct
    rw [div_mul_eq_mul_div, div_lt_iff₀ hnq]
    linarith
  · intro pcol' hsub
    have hss : orphanSet pcol' ccol ⊆ orphanSet pcol ccol :=
      Finset.sdiff_subset_sdiff (le_refl _) hsub
    have hcard : ((orphanSet pcol' ccol).card : ℚ) ≤ ((orphanSet pcol ccol).card : ℚ) := by
      exact_mod_cast Finset.card_le_card hss
    unfold integrityPct
    have hsubq : ((ct.nrows : ℚ) - (orphanSet pcol ccol).card) ≤
        ((ct.nrows : ℚ) - (orphanSet pcol' ccol).card) := by linarith
    have hdiv : ((ct.nrows : ℚ) - (orphanSet pcol ccol).card) / (ct.nrows : ℚ) ≤
        ((ct.nrows : ℚ) - (orphanSet pcol' ccol).card) / (ct.nrows : ℚ) := by
      rw [div_le_div_iff₀ hnq hnq]
      nlinarith
    exact mul_le_mul_of_nonneg_right hdiv (by norm_num)

/-- Witness for `C7_integrity_pct`: the parent holds keys `{a, b}`, the two
child records hold keys `{a, c}`; one orphan (`c`), integrity 50%, and `b`
being unreferenced does not lower the percentage. -/
theorem C7_integrity_witness :
    checkRelationship
      [("orders", ⟨2, [("order_id", (Dtype.object, [CellVal.str "a", CellVal.str "b"]))]⟩),
       ("order_items", ⟨2, [("order_id", (Dtype.object, [CellVal.str "a", CellVal.str "c"]))]⟩)]
      "orders" "order_items" "order_id" = RelOutcome.evaluated 1 50 := by
  have h := (C7_integrity_pct
      [("orders", ⟨2, [("order_id", (Dtype.object, [CellVal.str "a", CellVal.str "b"]))]⟩),
       ("order_items", ⟨2, [("order_id", (Dtype.object, [CellVal.str "a", CellVal.str "c"]))]⟩)]
      "orders" "order_items" "order_id"
      ⟨2, [("order_id", (Dtype.object, [CellVal.str "a", CellVal.str "b"]))]⟩
      ⟨2, [("order_id", (Dtype.object, [CellVal.str "a", CellVal.str "c"]))]⟩
      (Dtype.object, [CellVal.str "a", CellVal.str "b"])
      (Dtype.object, [CellVal.str "a", CellVal.str "c"])
      rfl rfl rfl rfl (by norm_num)).1
  have hcard : (orphanSet (Dtype.object, [CellVal.str "a", CellVal.str "b"])
      (Dtype.object, [CellVal.str "a", CellVal.str "c"])).card = 1 := by decide
  rw [h, hcard]
  have hpct : integrityPct 2 (Dtype.object, [CellVal.str "a", CellVal.str "b"])
      (Dtype.object, [CellVal.str "a", CellVal.str "c"]) = 50 := by
    rw [integrityPct, hcard]
    norm_num
  rw [hpct]

/-- C6: the claim says running any of the four comparison components leaves
both input table collections unchanged, so any order yields the same
results.  False: `business_logic_validation` aliases the stored synthetic
`orders` frame and line 392 overwrites its `order_purchase_timestamp` column
in place (`pd.to_datetime`), changing the synthetic collection — and a
categorical comparison run after it sees `Timestamp` values instead of
strings for that column (overlap drops from 100% to 0%), so the order of the
components is observable. -/
theorem C6_shared_state_cx :
    businessStep
      ([("orders", ⟨1, [("order_purchase_timestamp",
          (Dtype.object, [CellVal.str "2017-01-01 00:00:00"]))]⟩)],
       [("orders", ⟨1, [("order_purchase_timestamp",
          (Dtype.object, [CellVal.str "2017-01-01 00:00:00"]))]⟩)]) ≠
      ([("orders", ⟨1, [("order_purchase_timestamp",
          (Dtype.object, [CellVal.str "2017-01-01 00:00:00"]))]⟩)],
       [("orders", ⟨1, [("order_purchase_timestamp",
          (Dtype.object, [CellVal.str "2017-01-01 00:00:00"]))]⟩)]) ∧
    (categoricalStep (fun t => t)
      ([("orders", ⟨1, [("order_purchase_timestamp",
          (Dtype.object, [CellVal.str "2017-01-01 00:00:00"]))]⟩)],
       [("orders", ⟨1, [("order_purchase_timestamp",
          (Dtype.object, [CellVal.str "2017-01-01 00:00:00"]))]⟩)])).1 ≠
    (categoricalStep (fun t => t)
      (businessStep
        ([("orders", ⟨1, [("order_purchase_timestamp",
            (Dtype.object, [CellVal.str "2017-01-01 00:00:00"]))]⟩)],
         [("orders", ⟨1, [("order_purchase_timestamp",
            (Dtype.object, [CellVal.str "2017-01-01 00:00:00"]))]⟩)]))).1 := by
  constructor
  · decide
  · have h1 : (distinctNonNull [CellVal.str "2017-01-01 00:00:00"] ∩
        distinctNonNull [CellVal.str "2017-01-01 00:00:00"]).card = 1 := by decide
    have h2 : (distinctNonNull [CellVal.str "2017-01-01 00:00:00"] ∩
        distinctNonNull [CellVal.ts "2017-01-01 00:00:00"]).card = 0 := by decide
    have h3 : (distinctNonNull [CellVal.str "2017-01-01 00:00:00"]).card = 1 := by decide
    have h0 : ¬(distinctNonNull [CellVal.str "2017-01-01 00:00:00"] = ∅) := by decide
    have h5 : (distinctNonNull [CellVal.ts "2017-01-01 00:00:00"]).card = 1 := by decide
    simp [categoricalStep, businessStep, categoricalComparison, categoricalComparisonTable,
      businessMutateOrders, lookupStr, lookupCol, catColResult, updateAssoc, toDatetimeCell,
      timestampShaped, cellParseable, h0, h1, h2, h3, h5]

/-- C6 (amended): the statistical, categorical and referential-integrity
components do leave both input collections unchanged (none performs an
in-place write; the products translation edits a copy), so they commute —
only the business-rule validator mutates shared state. -/
theorem C6_pure_components_amended (real syn : TableMap) (translate : Tbl → Tbl)
    (rels : List (String × String × String)) :
    (statisticalStep (real, syn)).2 = (real, syn) ∧
    (categoricalStep translate (real, syn)).2 = (real, syn) ∧
    (referentialStep rels (real, syn)).2 = (real, syn) :=
  ⟨rfl, rfl, rfl⟩

end AuthChecker
